import Mathlib

/-!
Verification development of the ChiselStore RPC transport layer
(`src/rpc.rs`): the data model of protocol messages, their proto wire
forms, the marshalling performed by `send_paxos_message` and
`send_ble_message`, the unmarshalling performed by the inbound RPC
handlers, the connection pool, and the `execute` client endpoint.

Machine integers are modelled as `Nat` (u8/u32/u64/usize) and `Int`
(i32); the only narrowing cast in the code, `u32 as u8` on stop-sign
metadata, is modelled as `% 256`. The widening casts (`u8 as u32`,
`usize as u64` on a 64-bit target) are value preserving and modelled as
the identity. Fallible operations (`Option::unwrap` on proto fields,
which panics in Rust) are modelled with `Option` / an explicit `panic`
outcome constructor.
-/

namespace ChiselStore

/-- Ballot triple from `ble::Ballot`: fields n (u32), priority (u64), pid (u64). -/
structure Ballot where
  n : Nat
  priority : Nat
  pid : Nat
  deriving DecidableEq, Repr

/-- A replicated SQL command: `StoreCommand { id: usize, sql: String }`. -/
structure StoreCommand where
  id : Nat
  sql : String
  deriving DecidableEq, Repr

/-- Snapshot payload `storage::SnapshotType<()>`: `Complete(())` or `Delta(())`. -/
inductive SnapshotType where
  | complete
  | delta
  deriving DecidableEq, Repr

/-- Sync payload `util::SyncItem<StoreCommand, ()>` carried in Promise / AcceptSync. -/
inductive SyncItem where
  | entries (l : List StoreCommand)
  | snapshot (s : SnapshotType)
  | noneItem
  deriving DecidableEq, Repr

/-- Reconfiguration marker `storage::StopSign { config_id: u32, nodes: Vec<u64>,
metadata: Option<Vec<u8>> }`; metadata elements are bytes, so a well-formed
value has every element below 256. -/
structure StopSign where
  config_id : Nat
  nodes : List Nat
  metadata : Option (List Nat)
  deriving DecidableEq, Repr

/-- Log compaction request `messages::Compaction`: a trim index or a snapshot index. -/
inductive Compaction where
  | trim (t : Option Nat)
  | snapshot (s : Nat)
  deriving DecidableEq, Repr

/-- Payload of `messages::Prepare`. -/
structure Prepare where
  n : Ballot
  ld : Nat
  n_accepted : Ballot
  la : Nat
  deriving DecidableEq, Repr

/-- Payload of `messages::Promise`. -/
structure Promise where
  n : Ballot
  n_accepted : Ballot
  sync_item : Option SyncItem
  ld : Nat
  la : Nat
  stopsign : Option StopSign
  deriving DecidableEq, Repr

/-- Payload of `messages::AcceptSync`. -/
structure AcceptSync where
  n : Ballot
  sync_item : SyncItem
  sync_idx : Nat
  decide_idx : Nat
  stopsign : Option StopSign
  deriving DecidableEq, Repr

/-- Payload of `messages::FirstAccept`. -/
structure FirstAccept where
  n : Ballot
  entries : List StoreCommand
  deriving DecidableEq, Repr

/-- Payload of `messages::AcceptDecide`. -/
structure AcceptDecide where
  n : Ballot
  ld : Nat
  entries : List StoreCommand
  deriving DecidableEq, Repr

/-- Payload of `messages::Accepted`. -/
structure Accepted where
  n : Ballot
  la : Nat
  deriving DecidableEq, Repr

/-- Payload of `messages::Decide`. -/
structure Decide where
  n : Ballot
  ld : Nat
  deriving DecidableEq, Repr

/-- Payload of `messages::AcceptStopSign`. -/
structure AcceptStopSign where
  n : Ballot
  ss : StopSign
  deriving DecidableEq, Repr

/-- Payload of `messages::AcceptedStopSign`. -/
structure AcceptedStopSign where
  n : Ballot
  deriving DecidableEq, Repr

/-- Payload of `messages::DecideStopSign`. -/
structure DecideStopSign where
  n : Ballot
  deriving DecidableEq, Repr

/-- The fourteen Paxos message kinds of `messages::PaxosMsg<StoreCommand, ()>`. -/
inductive PaxosMsg where
  | prepareReq
  | prepare (p : Prepare)
  | promise (p : Promise)
  | acceptSync (a : AcceptSync)
  | firstAccept (f : FirstAccept)
  | acceptDecide (a : AcceptDecide)
  | accepted (a : Accepted)
  | decide (d : Decide)
  | proposalForward (props : List StoreCommand)
  | compaction (c : Compaction)
  | forwardCompaction (c : Compaction)
  | acceptStopSign (a : AcceptStopSign)
  | acceptedStopSign (a : AcceptedStopSign)
  | decideStopSign (d : DecideStopSign)
  deriving DecidableEq, Repr

/-- An addressed Paxos message, `messages::Message { from, to, msg }`. -/
structure Message where
  from_ : Nat
  to_ : Nat
  msg : PaxosMsg
  deriving DecidableEq, Repr

/-- BLE heartbeat request payload `ble::messages::HeartbeatRequest { round }`. -/
structure HeartbeatRequest where
  round : Nat
  deriving DecidableEq, Repr

/-- BLE heartbeat reply payload `ble::messages::HeartbeatReply`. -/
structure HeartbeatReply where
  round : Nat
  ballot : Ballot
  majority_connected : Bool
  deriving DecidableEq, Repr

/-- The two BLE message kinds of `ble::messages::HeartbeatMsg`. -/
inductive HeartbeatMsg where
  | request (r : HeartbeatRequest)
  | reply (r : HeartbeatReply)
  deriving DecidableEq, Repr

/-- An addressed BLE message, `ble::messages::BLEMessage { from, to, msg }`. -/
structure BLEMessage where
  from_ : Nat
  to_ : Nat
  msg : HeartbeatMsg
  deriving DecidableEq, Repr

/-- Wire form `ProtoBallot { n: u32, priority: u64, pid: u64 }`. -/
structure ProtoBallot where
  n : Nat
  priority : Nat
  pid : Nat
  deriving DecidableEq, Repr

/-- Wire form `ProtoEntry { id: u64, sql: string }`. -/
structure ProtoEntry where
  id : Nat
  sql : String
  deriving DecidableEq, Repr

/-- The oneof inside `ProtoSyncItem`: entries, snapshot flag, or none flag. -/
inductive ProtoSyncItemKind where
  | entries (l : List ProtoEntry)
  | snapshot (b : Bool)
  | noneItem (b : Bool)
  deriving DecidableEq, Repr

/-- Wire form `ProtoSyncItem`; the oneof field is optional on the wire
(prost generates an `Option` for it). -/
structure ProtoSyncItem where
  syncitem : Option ProtoSyncItemKind
  deriving DecidableEq, Repr

/-- Wire form `ProtoStopSign { config_id: u32, nodes: repeated u64,
metadata: repeated u32 }`. -/
structure ProtoStopSign where
  config_id : Nat
  nodes : List Nat
  metadata : List Nat
  deriving DecidableEq, Repr

/-- Wire form `ProtoTrim { trim: optional u64 }`. -/
structure ProtoTrim where
  trim : Option Nat
  deriving DecidableEq, Repr

/-- The oneof shared in shape by `proto_compaction::Compaction` and
`proto_forward_compaction::Compaction`. -/
inductive ProtoCompactionKind where
  | trim (t : ProtoTrim)
  | snapshot (s : Nat)
  deriving DecidableEq, Repr

/-- Wire form `ProtoPrepareReq { from, to }`. -/
structure ProtoPrepareReq where
  from_ : Nat
  to_ : Nat
  deriving DecidableEq, Repr

/-- Wire form `ProtoPrepare`; the ballots are optional message fields. -/
structure ProtoPrepare where
  from_ : Nat
  to_ : Nat
  n : Option ProtoBallot
  ld : Nat
  n_accepted : Option ProtoBallot
  la : Nat
  deriving DecidableEq, Repr

/-- Wire form `ProtoPromise`. -/
structure ProtoPromise where
  from_ : Nat
  to_ : Nat
  n : Option ProtoBallot
  n_accepted : Option ProtoBallot
  sync_item : Option ProtoSyncItem
  ld : Nat
  la : Nat
  stopsign : Option ProtoStopSign
  deriving DecidableEq, Repr

/-- Wire form `ProtoAcceptSync`. -/
structure ProtoAcceptSync where
  from_ : Nat
  to_ : Nat
  n : Option ProtoBallot
  sync_item : Option ProtoSyncItem
  sync_idx : Nat
  decided_idx : Nat
  stopsign : Option ProtoStopSign
  deriving DecidableEq, Repr

/-- Wire form `ProtoFirstAccept`. -/
structure ProtoFirstAccept where
  from_ : Nat
  to_ : Nat
  n : Option ProtoBallot
  entries : List ProtoEntry
  deriving DecidableEq, Repr

/-- Wire form `ProtoAcceptDecide`. -/
structure ProtoAcceptDecide where
  from_ : Nat
  to_ : Nat
  n : Option ProtoBallot
  ld : Nat
  entries : List ProtoEntry
  deriving DecidableEq, Repr

/-- Wire form `ProtoAccepted`. -/
structure ProtoAccepted where
  from_ : Nat
  to_ : Nat
  n : Option ProtoBallot
  la : Nat
  deriving DecidableEq, Repr

/-- Wire form `ProtoDecide`. -/
structure ProtoDecide where
  from_ : Nat
  to_ : Nat
  n : Option ProtoBallot
  ld : Nat
  deriving DecidableEq, Repr

/-- Wire form `ProtoProposalForward`. -/
structure ProtoProposalForward where
  from_ : Nat
  to_ : Nat
  proposals : List ProtoEntry
  deriving DecidableEq, Repr

/-- Wire form `ProtoCompaction`; the oneof is optional on the wire. -/
structure ProtoCompaction where
  from_ : Nat
  to_ : Nat
  compaction : Option ProtoCompactionKind
  deriving DecidableEq, Repr

/-- Wire form `ProtoForwardCompaction`; the oneof is optional on the wire. -/
structure ProtoForwardCompaction where
  from_ : Nat
  to_ : Nat
  compaction : Option ProtoCompactionKind
  deriving DecidableEq, Repr

/-- Wire form `ProtoAcceptStopSign`. -/
structure ProtoAcceptStopSign where
  from_ : Nat
  to_ : Nat
  n : Option ProtoBallot
  stopsign : Option ProtoStopSign
  deriving DecidableEq, Repr

/-- Wire form `ProtoAcceptedStopSign`. -/
structure ProtoAcceptedStopSign where
  from_ : Nat
  to_ : Nat
  n : Option ProtoBallot
  deriving DecidableEq, Repr

/-- Wire form `ProtoDecideStopSign`. -/
structure ProtoDecideStopSign where
  from_ : Nat
  to_ : Nat
  n : Option ProtoBallot
  deriving DecidableEq, Repr

/-- Wire form `ProtoHeartbeatRequest { from, to, round }`. -/
structure ProtoHeartbeatRequest where
  from_ : Nat
  to_ : Nat
  round : Nat
  deriving DecidableEq, Repr

/-- Wire form `ProtoHeartbeatReply { from, to, round, ballot, majority_connected }`. -/
structure ProtoHeartbeatReply where
  from_ : Nat
  to_ : Nat
  round : Nat
  ballot : Option ProtoBallot
  majority_connected : Bool
  deriving DecidableEq, Repr

/-- Empty acknowledgement body `ProtoVoid`. -/
structure ProtoVoid where
  deriving DecidableEq, Repr

/-- Client query request `ProtoQuery { sql: string, consistency: i32 }`. -/
structure ProtoQuery where
  sql : String
  consistency : Int
  deriving DecidableEq, Repr

/-- One result row on the wire, `ProtoQueryRow { values: repeated string }`. -/
structure ProtoQueryRow where
  values : List String
  deriving DecidableEq, Repr

/-- Client query response `ProtoQueryResults { rows }`. -/
structure ProtoQueryResults where
  rows : List ProtoQueryRow
  deriving DecidableEq, Repr

/-- Encode a ballot, from `get_proto_ballot`. -/
def get_proto_ballot (ballot : Ballot) : ProtoBallot :=
  { n := ballot.n, priority := ballot.priority, pid := ballot.pid }

/-- Encode a command, from `get_proto_entry` (`id as u64` is value preserving
on a 64-bit target). -/
def get_proto_entry (cmd : StoreCommand) : ProtoEntry :=
  { id := cmd.id, sql := cmd.sql }

/-- Encode a sync item, from `get_proto_sync_item`: entries map pointwise,
any snapshot becomes the flag `Snapshot(true)`, none becomes `None(true)`. -/
def get_proto_sync_item : SyncItem → ProtoSyncItem
  | SyncItem.entries entries =>
      { syncitem := some (ProtoSyncItemKind.entries (entries.map get_proto_entry)) }
  | SyncItem.snapshot _ =>
      { syncitem := some (ProtoSyncItemKind.snapshot true) }
  | SyncItem.noneItem =>
      { syncitem := some (ProtoSyncItemKind.noneItem true) }

/-- Encode a stop sign, from `get_proto_stop_sign`: metadata `Some(meta)`
widens each byte to u32 (value preserving), `None` becomes the empty list. -/
def get_proto_stop_sign (stopsign : StopSign) : ProtoStopSign :=
  { config_id := stopsign.config_id
    nodes := stopsign.nodes
    metadata := match stopsign.metadata with
      | some meta => meta
      | none => [] }

/-- Encode a compaction, from `get_proto_compaction`. -/
def get_proto_compaction : Compaction → ProtoCompactionKind
  | Compaction.trim ent => ProtoCompactionKind.trim { trim := ent }
  | Compaction.snapshot snp => ProtoCompactionKind.snapshot snp

/-- Encode a forwarded compaction, from `get_proto_forward_compaction`
(same shape as `get_proto_compaction`, distinct function in the source). -/
def get_proto_forward_compaction : Compaction → ProtoCompactionKind
  | Compaction.trim ent => ProtoCompactionKind.trim { trim := ent }
  | Compaction.snapshot snp => ProtoCompactionKind.snapshot snp

/-- Decode a ballot, from `get_ballot_from_proto`. -/
def get_ballot_from_proto (proto_ballot : ProtoBallot) : Ballot :=
  { n := proto_ballot.n, priority := proto_ballot.priority, pid := proto_ballot.pid }

/-- Decode a command, from `get_entry_from_proto` (`id as usize` is value
preserving on a 64-bit target). -/
def get_entry_from_proto (proto_entry : ProtoEntry) : StoreCommand :=
  { id := proto_entry.id, sql := proto_entry.sql }

/-- Decode a sync item, from `get_syncitem_from_proto`. The source calls
`syncitem.syncitem.unwrap()`, which panics when the oneof is absent;
the panic is modelled as `none`. Any snapshot flag decodes to
`Snapshot(SnapshotType::Complete(()))`. -/
def get_syncitem_from_proto (syncitem : ProtoSyncItem) : Option SyncItem :=
  match syncitem.syncitem with
  | none => none
  | some (ProtoSyncItemKind.entries entries) =>
      some (SyncItem.entries (entries.map get_entry_from_proto))
  | some (ProtoSyncItemKind.snapshot _) =>
      some (SyncItem.snapshot SnapshotType.complete)
  | some (ProtoSyncItemKind.noneItem _) =>
      some SyncItem.noneItem

/-- Decode a stop sign, from `get_stopsign_from_proto`: metadata is always
wrapped in `Some`, and each wire u32 is narrowed with `as u8`, i.e. reduced
mod 256. -/
def get_stopsign_from_proto (stopsign : ProtoStopSign) : StopSign :=
  { config_id := stopsign.config_id
    nodes := stopsign.nodes
    metadata := some (stopsign.metadata.map (fun m => m % 256)) }

/-- Decode a compaction, from `get_compaction_from_proto`. -/
def get_compaction_from_proto : ProtoCompactionKind → Compaction
  | ProtoCompactionKind.trim trim => Compaction.trim trim.trim
  | ProtoCompactionKind.snapshot snp => Compaction.snapshot snp

/-- Decode a forwarded compaction, from `get_forward_compaction_from_proto`. -/
def get_forward_compaction_from_proto : ProtoCompactionKind → Compaction
  | ProtoCompactionKind.trim trim => Compaction.trim trim.trim
  | ProtoCompactionKind.snapshot snp => Compaction.snapshot snp

/-- The sixteen typed RPC requests the transport can put on the wire: one per
Paxos message kind plus the two BLE heartbeat kinds. -/
inductive ProtoRequest where
  | prepareReq (r : ProtoPrepareReq)
  | prepare (r : ProtoPrepare)
  | promise (r : ProtoPromise)
  | acceptSync (r : ProtoAcceptSync)
  | firstAccept (r : ProtoFirstAccept)
  | acceptDecide (r : ProtoAcceptDecide)
  | accepted (r : ProtoAccepted)
  | decide (r : ProtoDecide)
  | proposalForward (r : ProtoProposalForward)
  | compaction (r : ProtoCompaction)
  | forwardCompaction (r : ProtoForwardCompaction)
  | acceptStopSign (r : ProtoAcceptStopSign)
  | acceptedStopSign (r : ProtoAcceptedStopSign)
  | decideStopSign (r : ProtoDecideStopSign)
  | heartbeatRequest (r : ProtoHeartbeatRequest)
  | heartbeatReply (r : ProtoHeartbeatReply)
  deriving DecidableEq, Repr

/-- Marshalling part of `send_paxos_message`: the proto request each arm of
the match builds and hands to the spawned RPC task. -/
def send_paxos_message (msg : Message) : ProtoRequest :=
  match msg.msg with
  | PaxosMsg.prepareReq =>
      ProtoRequest.prepareReq { from_ := msg.from_, to_ := msg.to_ }
  | PaxosMsg.prepare prep =>
      ProtoRequest.prepare
        { from_ := msg.from_, to_ := msg.to_
          n := some (get_proto_ballot prep.n)
          ld := prep.ld
          n_accepted := some (get_proto_ballot prep.n_accepted)
          la := prep.la }
  | PaxosMsg.promise prom =>
      ProtoRequest.promise
        { from_ := msg.from_, to_ := msg.to_
          n := some (get_proto_ballot prom.n)
          n_accepted := some (get_proto_ballot prom.n_accepted)
          sync_item := match prom.sync_item with
            | some sync_item => some (get_proto_sync_item sync_item)
            | none => none
          ld := prom.ld
          la := prom.la
          stopsign := match prom.stopsign with
            | some stopsign => some (get_proto_stop_sign stopsign)
            | none => none }
  | PaxosMsg.acceptSync acc_sync =>
      ProtoRequest.acceptSync
        { from_ := msg.from_, to_ := msg.to_
          n := some (get_proto_ballot acc_sync.n)
          sync_item := some (get_proto_sync_item acc_sync.sync_item)
          sync_idx := acc_sync.sync_idx
          decided_idx := acc_sync.decide_idx
          stopsign := match acc_sync.stopsign with
            | some stopsign => some (get_proto_stop_sign stopsign)
            | none => none }
  | PaxosMsg.firstAccept f =>
      ProtoRequest.firstAccept
        { from_ := msg.from_, to_ := msg.to_
          n := some (get_proto_ballot f.n)
          entries := f.entries.map get_proto_entry }
  | PaxosMsg.acceptDecide acc =>
      ProtoRequest.acceptDecide
        { from_ := msg.from_, to_ := msg.to_
          n := some (get_proto_ballot acc.n)
          ld := acc.ld
          entries := acc.entries.map get_proto_entry }
  | PaxosMsg.accepted accepted =>
      ProtoRequest.accepted
        { from_ := msg.from_, to_ := msg.to_
          n := some (get_proto_ballot accepted.n)
          la := accepted.la }
  | PaxosMsg.decide dec =>
      ProtoRequest.decide
        { from_ := msg.from_, to_ := msg.to_
          n := some (get_proto_ballot dec.n)
          ld := dec.ld }
  | PaxosMsg.proposalForward props =>
      ProtoRequest.proposalForward
        { from_ := msg.from_, to_ := msg.to_
          proposals := props.map get_proto_entry }
  | PaxosMsg.compaction comps =>
      ProtoRequest.compaction
        { from_ := msg.from_, to_ := msg.to_
          compaction := some (get_proto_compaction comps) }
  | PaxosMsg.forwardCompaction comps =>
      ProtoRequest.forwardCompaction
        { from_ := msg.from_, to_ := msg.to_
          compaction := some (get_proto_forward_compaction comps) }
  | PaxosMsg.acceptStopSign acc_ss =>
      ProtoRequest.acceptStopSign
        { from_ := msg.from_, to_ := msg.to_
          n := some (get_proto_ballot acc_ss.n)
          stopsign := some (get_proto_stop_sign acc_ss.ss) }
  | PaxosMsg.acceptedStopSign acc_ss =>
      ProtoRequest.acceptedStopSign
        { from_ := msg.from_, to_ := msg.to_
          n := some (get_proto_ballot acc_ss.n) }
  | PaxosMsg.decideStopSign d_ss =>
      ProtoRequest.decideStopSign
        { from_ := msg.from_, to_ := msg.to_
          n := some (get_proto_ballot d_ss.n) }

/-- Marshalling part of `send_ble_message`: the proto request each arm builds. -/
def send_ble_message (ble_msg : BLEMessage) : ProtoRequest :=
  match ble_msg.msg with
  | HeartbeatMsg.request req =>
      ProtoRequest.heartbeatRequest
        { from_ := ble_msg.from_, to_ := ble_msg.to_, round := req.round }
  | HeartbeatMsg.reply reply =>
      ProtoRequest.heartbeatReply
        { from_ := ble_msg.from_, to_ := ble_msg.to_
          round := reply.round
          ballot := some (get_proto_ballot reply.ballot)
          majority_connected := reply.majority_connected }

/-- Result of the connect-plus-call performed by a spawned outbound task:
success, a failure of `RpcClient::connect` inside `ConnectionPool::connection`,
or a failure of the RPC call itself. -/
inductive RpcResult where
  | ok
  | connectError
  | callError
  deriving DecidableEq, Repr

/-- Fate of a spawned outbound task. -/
inductive TaskOutcome where
  | completed
  | panicked
  deriving DecidableEq, Repr

/-- Fate of the task body shared by every send arm:
`pool.connection(peer).await` calls `RpcClient::connect(addr).await.unwrap()`
when the pool is empty, and the arm then calls
`client.conn.<rpc>(request).await.unwrap()`; each `unwrap` panics on `Err`. -/
def send_task_outcome : RpcResult → TaskOutcome
  | RpcResult.ok => TaskOutcome.completed
  | RpcResult.connectError => TaskOutcome.panicked
  | RpcResult.callError => TaskOutcome.panicked

/-- Fate of the task spawned by `send_paxos_message` for a given message and
a given connect-plus-call result: every one of the fourteen arms runs the
same unwrap pattern on its own RPC method. -/
def send_paxos_message_task (msg : Message) (r : RpcResult) : TaskOutcome :=
  match msg.msg with
  | PaxosMsg.prepareReq => send_task_outcome r
  | PaxosMsg.prepare _ => send_task_outcome r
  | PaxosMsg.promise _ => send_task_outcome r
  | PaxosMsg.acceptSync _ => send_task_outcome r
  | PaxosMsg.firstAccept _ => send_task_outcome r
  | PaxosMsg.acceptDecide _ => send_task_outcome r
  | PaxosMsg.accepted _ => send_task_outcome r
  | PaxosMsg.decide _ => send_task_outcome r
  | PaxosMsg.proposalForward _ => send_task_outcome r
  | PaxosMsg.compaction _ => send_task_outcome r
  | PaxosMsg.forwardCompaction _ => send_task_outcome r
  | PaxosMsg.acceptStopSign _ => send_task_outcome r
  | PaxosMsg.acceptedStopSign _ => send_task_outcome r
  | PaxosMsg.decideStopSign _ => send_task_outcome r

/-- Fate of the task spawned by `send_ble_message`: both arms run the same
unwrap pattern on their RPC method. -/
def send_ble_message_task (ble_msg : BLEMessage) (r : RpcResult) : TaskOutcome :=
  match ble_msg.msg with
  | HeartbeatMsg.request _ => send_task_outcome r
  | HeartbeatMsg.reply _ => send_task_outcome r

/-- Wire consistency enum `ProtoConsistency { Strong = 0, RelaxedReads = 1 }`. -/
inductive ProtoConsistency where
  | strong
  | relaxedReads
  deriving DecidableEq, Repr

/-- Internal consistency level `Consistency`. -/
inductive Consistency where
  | strong
  | relaxedReads
  deriving DecidableEq, Repr

/-- Prost's `ProtoConsistency::from_i32`: `Some` on the two known
discriminants, `None` otherwise. -/
def protoConsistencyFromI32 (i : Int) : Option ProtoConsistency :=
  if i = 0 then some ProtoConsistency.strong
  else if i = 1 then some ProtoConsistency.relaxedReads
  else none

/-- Consistency computation at the top of the `execute` handler:
`from_i32(query.consistency).unwrap_or(ProtoConsistency::Strong)` followed by
the match mapping the proto enum onto the internal one. -/
def executeConsistency (i : Int) : Consistency :=
  match (protoConsistencyFromI32 i).getD ProtoConsistency.strong with
  | ProtoConsistency.strong => Consistency.strong
  | ProtoConsistency.relaxedReads => Consistency.relaxedReads

/-- A call an inbound RPC handler makes on the store server. The handlers in
the source only ever call `recv_msg`, `recv_ble_msg` or `query`; draining
outbound messages (`drainOutbound`) is the ticker's job and never appears. -/
inductive ServerEffect where
  | recvMsg (m : Message)
  | recvBleMsg (m : BLEMessage)
  | query (sql : String) (c : Consistency)
  | drainOutbound
  deriving DecidableEq, Repr

/-- Error status an RPC handler can return; the source only builds
`Status::internal(message)`. -/
inductive Status where
  | internal (msg : String)
  deriving DecidableEq, Repr

/-- Observable outcome of one inbound RPC handler invocation: a panic (an
`unwrap` of an absent field), a successful response with the list of server
calls made, or an error status with the list of server calls made. -/
inductive HandlerOutcome (α : Type) where
  | panic
  | ok (effects : List ServerEffect) (resp : α)
  | err (effects : List ServerEffect) (status : Status)
  deriving DecidableEq, Repr

/-- Decode the optional sync item field of a Promise request, as the
`promise_message` handler does: an absent field stays `None`; a present field
goes through `get_syncitem_from_proto`, whose panic propagates. -/
def decodeOptSyncItem : Option ProtoSyncItem → Option (Option SyncItem)
  | none => some none
  | some psi =>
      match get_syncitem_from_proto psi with
      | some si => some (some si)
      | none => none

/-- Handler `prepare_request`: rebuilds the PrepareReq message and feeds it
to `recv_msg`, returning an empty body. -/
def prepare_request (msg : ProtoPrepareReq) : HandlerOutcome ProtoVoid :=
  HandlerOutcome.ok
    [ServerEffect.recvMsg { from_ := msg.from_, to_ := msg.to_, msg := PaxosMsg.prepareReq }]
    {}

/-- Handler `prepare_message`: unwraps the two ballots (panicking when one is
absent), rebuilds the Prepare message and feeds it to `recv_msg`. -/
def prepare_message (msg : ProtoPrepare) : HandlerOutcome ProtoVoid :=
  match msg.n, msg.n_accepted with
  | some n, some n_accepted =>
      HandlerOutcome.ok
        [ServerEffect.recvMsg
          { from_ := msg.from_, to_ := msg.to_
            msg := PaxosMsg.prepare
              { n := get_ballot_from_proto n
                ld := msg.ld
                n_accepted := get_ballot_from_proto n_accepted
                la := msg.la } }]
        {}
  | _, _ => HandlerOutcome.panic

/-- Handler `promise_message`: unwraps the two ballots, decodes the optional
sync item (panicking when its oneof is absent) and the optional stop sign,
rebuilds the Promise message and feeds it to `recv_msg`. -/
def promise_message (msg : ProtoPromise) : HandlerOutcome ProtoVoid :=
  match msg.n, msg.n_accepted, decodeOptSyncItem msg.sync_item with
  | some n, some n_accepted, some sync_item =>
      HandlerOutcome.ok
        [ServerEffect.recvMsg
          { from_ := msg.from_, to_ := msg.to_
            msg := PaxosMsg.promise
              { n := get_ballot_from_proto n
                n_accepted := get_ballot_from_proto n_accepted
                sync_item := sync_item
                ld := msg.ld
                la := msg.la
                stopsign := match msg.stopsign with
                  | some stopsign => some (get_stopsign_from_proto stopsign)
                  | none => none } }]
        {}
  | _, _, _ => HandlerOutcome.panic

/-- Handler `accept_sync_message`: unwraps the ballot and the sync item field
(and the sync item's oneof inside `get_syncitem_from_proto`), decodes the
optional stop sign, rebuilds the AcceptSync message and feeds it to
`recv_msg`. -/
def accept_sync_message (msg : ProtoAcceptSync) : HandlerOutcome ProtoVoid :=
  match msg.n, msg.sync_item with
  | some n, some psi =>
      match get_syncitem_from_proto psi with
      | some sync_item =>
          HandlerOutcome.ok
            [ServerEffect.recvMsg
              { from_ := msg.from_, to_ := msg.to_
                msg := PaxosMsg.acceptSync
                  { n := get_ballot_from_proto n
                    sync_item := sync_item
                    sync_idx := msg.sync_idx
                    decide_idx := msg.decided_idx
                    stopsign := match msg.stopsign with
                      | some stopsign => some (get_stopsign_from_proto stopsign)
                      | none => none } }]
            {}
      | none => HandlerOutcome.panic
  | _, _ => HandlerOutcome.panic

/-- Handler `first_accept_message`. -/
def first_accept_message (msg : ProtoFirstAccept) : HandlerOutcome ProtoVoid :=
  match msg.n with
  | some n =>
      HandlerOutcome.ok
        [ServerEffect.recvMsg
          { from_ := msg.from_, to_ := msg.to_
            msg := PaxosMsg.firstAccept
              { n := get_ballot_from_proto n
                entries := msg.entries.map get_entry_from_proto } }]
        {}
  | none => HandlerOutcome.panic

/-- Handler `accept_decide_message`. -/
def accept_decide_message (msg : ProtoAcceptDecide) : HandlerOutcome ProtoVoid :=
  match msg.n with
  | some n =>
      HandlerOutcome.ok
        [ServerEffect.recvMsg
          { from_ := msg.from_, to_ := msg.to_
            msg := PaxosMsg.acceptDecide
              { n := get_ballot_from_proto n
                ld := msg.ld
                entries := msg.entries.map get_entry_from_proto } }]
        {}
  | none => HandlerOutcome.panic

/-- Handler `accepted_message`. -/
def accepted_message (msg : ProtoAccepted) : HandlerOutcome ProtoVoid :=
  match msg.n with
  | some n =>
      HandlerOutcome.ok
        [ServerEffect.recvMsg
          { from_ := msg.from_, to_ := msg.to_
            msg := PaxosMsg.accepted { n := get_ballot_from_proto n, la := msg.la } }]
        {}
  | none => HandlerOutcome.panic

/-- Handler `decide_message`. -/
def decide_message (msg : ProtoDecide) : HandlerOutcome ProtoVoid :=
  match msg.n with
  | some n =>
      HandlerOutcome.ok
        [ServerEffect.recvMsg
          { from_ := msg.from_, to_ := msg.to_
            msg := PaxosMsg.decide { n := get_ballot_from_proto n, ld := msg.ld } }]
        {}
  | none => HandlerOutcome.panic

/-- Handler `proposal_forward_message` (no optional field, never panics). -/
def proposal_forward_message (msg : ProtoProposalForward) : HandlerOutcome ProtoVoid :=
  HandlerOutcome.ok
    [ServerEffect.recvMsg
      { from_ := msg.from_, to_ := msg.to_
        msg := PaxosMsg.proposalForward (msg.proposals.map get_entry_from_proto) }]
    {}

/-- Handler `compaction_message`: unwraps the compaction oneof. -/
def compaction_message (msg : ProtoCompaction) : HandlerOutcome ProtoVoid :=
  match msg.compaction with
  | some compaction =>
      HandlerOutcome.ok
        [ServerEffect.recvMsg
          { from_ := msg.from_, to_ := msg.to_
            msg := PaxosMsg.compaction (get_compaction_from_proto compaction) }]
        {}
  | none => HandlerOutcome.panic

/-- Handler `forward_compaction_message`: unwraps the compaction oneof. -/
def forward_compaction_message (msg : ProtoForwardCompaction) : HandlerOutcome ProtoVoid :=
  match msg.compaction with
  | some compaction =>
      HandlerOutcome.ok
        [ServerEffect.recvMsg
          { from_ := msg.from_, to_ := msg.to_
            msg := PaxosMsg.forwardCompaction (get_forward_compaction_from_proto compaction) }]
        {}
  | none => HandlerOutcome.panic

/-- Handler `accept_stop_sign_message`: unwraps the ballot and the stop sign. -/
def accept_stop_sign_message (msg : ProtoAcceptStopSign) : HandlerOutcome ProtoVoid :=
  match msg.n, msg.stopsign with
  | some n, some stopsign =>
      HandlerOutcome.ok
        [ServerEffect.recvMsg
          { from_ := msg.from_, to_ := msg.to_
            msg := PaxosMsg.acceptStopSign
              { n := get_ballot_from_proto n
                ss := get_stopsign_from_proto stopsign } }]
        {}
  | _, _ => HandlerOutcome.panic

/-- Handler `accepted_stop_sign_message`. -/
def accepted_stop_sign_message (msg : ProtoAcceptedStopSign) : HandlerOutcome ProtoVoid :=
  match msg.n with
  | some n =>
      HandlerOutcome.ok
        [ServerEffect.recvMsg
          { from_ := msg.from_, to_ := msg.to_
            msg := PaxosMsg.acceptedStopSign { n := get_ballot_from_proto n } }]
        {}
  | none => HandlerOutcome.panic

/-- Handler `decide_stop_sign_message`. -/
def decide_stop_sign_message (msg : ProtoDecideStopSign) : HandlerOutcome ProtoVoid :=
  match msg.n with
  | some n =>
      HandlerOutcome.ok
        [ServerEffect.recvMsg
          { from_ := msg.from_, to_ := msg.to_
            msg := PaxosMsg.decideStopSign { n := get_ballot_from_proto n } }]
        {}
  | none => HandlerOutcome.panic

/-- Handler `heartbeat_request_message` (no optional field, never panics). -/
def heartbeat_request_message (msg : ProtoHeartbeatRequest) : HandlerOutcome ProtoVoid :=
  HandlerOutcome.ok
    [ServerEffect.recvBleMsg
      { from_ := msg.from_, to_ := msg.to_
        msg := HeartbeatMsg.request { round := msg.round } }]
    {}

/-- Handler `heartbeat_reply_message`: unwraps the ballot. -/
def heartbeat_reply_message (msg : ProtoHeartbeatReply) : HandlerOutcome ProtoVoid :=
  match msg.ballot with
  | some ballot =>
      HandlerOutcome.ok
        [ServerEffect.recvBleMsg
          { from_ := msg.from_, to_ := msg.to_
            msg := HeartbeatMsg.reply
              { round := msg.round
                ballot := get_ballot_from_proto ballot
                majority_connected := msg.majority_connected } }]
        {}
  | none => HandlerOutcome.panic

/-- Dispatch an inbound protocol request to its handler, as the generated
RPC service does. -/
def handle_proto_request : ProtoRequest → HandlerOutcome ProtoVoid
  | ProtoRequest.prepareReq r => prepare_request r
  | ProtoRequest.prepare r => prepare_message r
  | ProtoRequest.promise r => promise_message r
  | ProtoRequest.acceptSync r => accept_sync_message r
  | ProtoRequest.firstAccept r => first_accept_message r
  | ProtoRequest.acceptDecide r => accept_decide_message r
  | ProtoRequest.accepted r => accepted_message r
  | ProtoRequest.decide r => decide_message r
  | ProtoRequest.proposalForward r => proposal_forward_message r
  | ProtoRequest.compaction r => compaction_message r
  | ProtoRequest.forwardCompaction r => forward_compaction_message r
  | ProtoRequest.acceptStopSign r => accept_stop_sign_message r
  | ProtoRequest.acceptedStopSign r => accepted_stop_sign_message r
  | ProtoRequest.decideStopSign r => decide_stop_sign_message r
  | ProtoRequest.heartbeatRequest r => heartbeat_request_message r
  | ProtoRequest.heartbeatReply r => heartbeat_reply_message r

/-- One result row produced by the server's `query`: column values already
rendered as strings. -/
structure QueryRow where
  values : List String
  deriving DecidableEq, Repr

/-- Result set produced by the server's `query`. -/
structure QueryResults where
  rows : List QueryRow
  deriving DecidableEq, Repr

/-- Handler `execute`: computes the consistency, calls
`server.query(query.sql, consistency)`, maps an engine error to
`Status::internal(format("{}", e))` (the stringified error itself) and a
success to the rows with each row's values copied in order. The server's
`query` is passed in as a function, standing for `self.server`. -/
def execute (serverQuery : String → Consistency → Except String QueryResults)
    (query : ProtoQuery) : HandlerOutcome ProtoQueryResults :=
  let consistency := executeConsistency query.consistency
  match serverQuery query.sql consistency with
  | Except.error e =>
      HandlerOutcome.err [ServerEffect.query query.sql consistency] (Status.internal e)
  | Except.ok results =>
      HandlerOutcome.ok [ServerEffect.query query.sql consistency]
        { rows := results.rows.map (fun row => { values := row.values }) }

/-- Bounded lock-free queue `crossbeam::queue::ArrayQueue`: a FIFO with a
fixed capacity; `push` fails (returning the element) when full, `pop` returns
`None` when empty. Items are pushed at the back and popped from the front. -/
structure ArrayQueue (α : Type) where
  cap : Nat
  items : List α
  deriving DecidableEq, Repr

/-- The queue after `ArrayQueue::push`, together with whether the push was
accepted: a full queue rejects the element unchanged. -/
def ArrayQueue.push {α : Type} (q : ArrayQueue α) (x : α) : ArrayQueue α × Bool :=
  if q.items.length < q.cap then ({ cap := q.cap, items := q.items ++ [x] }, true)
  else (q, false)

/-- The popped element (if any) and the queue after `ArrayQueue::pop`. -/
def ArrayQueue.pop {α : Type} (q : ArrayQueue α) : Option α × ArrayQueue α :=
  match q.items with
  | [] => (none, q)
  | x :: xs => (some x, { cap := q.cap, items := xs })

/-- Connections are opaque here; only the pool discipline matters. -/
abbrev Conn : Type := Nat

/-- The fresh pool built by `ConnectionPool::new`: `ArrayQueue::new(16)`. -/
def ConnectionPool.new : ArrayQueue Conn :=
  { cap := 16, items := [] }

/-- `ConnectionPool::replenish`: `let _ = self.connections.push(conn)` — the
push result is discarded, so a full pool drops the returned connection. -/
def ConnectionPool.replenish (q : ArrayQueue Conn) (conn : Conn) : ArrayQueue Conn :=
  (q.push conn).1

/-- `ConnectionPool::connection`: pop a pooled connection, or, when the pool
is empty, open a fresh one to the peer's address (the fresh connection the
dial would produce is passed in as `newConn`). Returns the borrowed
connection and the remaining pool. -/
def ConnectionPool.connection (q : ArrayQueue Conn) (newConn : Conn) :
    Conn × ArrayQueue Conn :=
  match q.pop with
  | (some x, q2) => (x, q2)
  | (none, q2) => (newConn, q2)

/-- One client-visible operation on a pool: returning a connection
(`Connection::drop` → `replenish`) or borrowing one (`connection`). -/
inductive PoolOp where
  | returnConn (conn : Conn)
  | borrow (newConn : Conn)
  deriving Repr

/-- Apply one pool operation to a pool state. -/
def applyPoolOp (q : ArrayQueue Conn) : PoolOp → ArrayQueue Conn
  | PoolOp.returnConn conn => ConnectionPool.replenish q conn
  | PoolOp.borrow newConn => (ConnectionPool.connection q newConn).2

/-- The pool state reached from `ConnectionPool::new` by a sequence of
returns and borrows. -/
def runPoolOps (ops : List PoolOp) : ArrayQueue Conn :=
  ops.foldl applyPoolOp ConnectionPool.new

/-- A well-formed stop sign as the Rust types guarantee it for round-trip
purposes: metadata present (the wire cannot distinguish an absent list from
an empty one) and every metadata element a byte, as `Vec<u8>` enforces. -/
def wfStopSign (ss : StopSign) : Bool :=
  match ss.metadata with
  | some l => l.all (fun m => m < 256)
  | none => false

/-- Well-formedness of an optional stop sign field. -/
def wfOptStopSign : Option StopSign → Bool
  | some ss => wfStopSign ss
  | none => true

/-- A sync item whose snapshot payload (if any) is `Complete`, the only form
this store produces; the wire flag cannot represent `Delta`. -/
def wfSyncItem : SyncItem → Bool
  | SyncItem.entries _ => true
  | SyncItem.snapshot SnapshotType.complete => true
  | SyncItem.snapshot SnapshotType.delta => false
  | SyncItem.noneItem => true

/-- Well-formedness of an optional sync item field. -/
def wfOptSyncItem : Option SyncItem → Bool
  | some si => wfSyncItem si
  | none => true

/-- Well-formedness of a Paxos message for the round-trip law: every embedded
stop sign carries `Some` byte metadata and every snapshot payload is
`Complete`. -/
def wfPaxosMsg : PaxosMsg → Bool
  | PaxosMsg.promise p => wfOptSyncItem p.sync_item && wfOptStopSign p.stopsign
  | PaxosMsg.acceptSync a => wfSyncItem a.sync_item && wfOptStopSign a.stopsign
  | PaxosMsg.acceptStopSign a => wfStopSign a.ss
  | _ => true

/-- Well-formedness of an addressed Paxos message. -/
def wfMessage (m : Message) : Bool :=
  wfPaxosMsg m.msg

/-- An inbound request with every required field present: each optional
ballot / sync item / compaction / stop sign field the handler unwraps is
`Some`, and a present sync item has its oneof set. -/
def wfProtoRequest : ProtoRequest → Bool
  | ProtoRequest.prepareReq _ => true
  | ProtoRequest.prepare r => r.n.isSome && r.n_accepted.isSome
  | ProtoRequest.promise r =>
      r.n.isSome && r.n_accepted.isSome && (decodeOptSyncItem r.sync_item).isSome
  | ProtoRequest.acceptSync r =>
      r.n.isSome &&
        (match r.sync_item with
          | some psi => (get_syncitem_from_proto psi).isSome
          | none => false)
  | ProtoRequest.firstAccept r => r.n.isSome
  | ProtoRequest.acceptDecide r => r.n.isSome
  | ProtoRequest.accepted r => r.n.isSome
  | ProtoRequest.decide r => r.n.isSome
  | ProtoRequest.proposalForward _ => true
  | ProtoRequest.compaction r => r.compaction.isSome
  | ProtoRequest.forwardCompaction r => r.compaction.isSome
  | ProtoRequest.acceptStopSign r => r.n.isSome && r.stopsign.isSome
  | ProtoRequest.acceptedStopSign r => r.n.isSome
  | ProtoRequest.decideStopSign r => r.n.isSome
  | ProtoRequest.heartbeatRequest _ => true
  | ProtoRequest.heartbeatReply r => r.ballot.isSome

/-- Ballots survive an encode-decode cycle. -/
theorem get_ballot_roundtrip (b : Ballot) :
    get_ballot_from_proto (get_proto_ballot b) = b := rfl

/-- Commands survive an encode-decode cycle. -/
theorem get_entry_roundtrip (cmd : StoreCommand) :
    get_entry_from_proto (get_proto_entry cmd) = cmd := rfl

/-- Command lists survive an encode-decode cycle. -/
theorem entries_roundtrip (l : List StoreCommand) :
    (l.map get_proto_entry).map get_entry_from_proto = l := by
  induction l with
  | nil => rfl
  | cons c cs ih => simp [get_entry_roundtrip, ih]

/-- Reducing every element of a list of bytes mod 256 changes nothing. -/
theorem map_mod256_eq_self (l : List Nat) (h : ∀ m ∈ l, m < 256) :
    l.map (fun m => m % 256) = l := by
  induction l with
  | nil => rfl
  | cons x xs ih =>
      simp only [List.map_cons]
      rw [Nat.mod_eq_of_lt (h x (List.mem_cons_self x xs)),
        ih (fun m hm => h m (List.mem_cons_of_mem x hm))]

/-- A stop sign with present byte metadata survives an encode-decode cycle. -/
theorem stopsign_roundtrip (ss : StopSign) (h : wfStopSign ss = true) :
    get_stopsign_from_proto (get_proto_stop_sign ss) = ss := by
  obtain ⟨cid, nodes, metadata⟩ := ss
  cases metadata with
  | none => simp [wfStopSign] at h
  | some l =>
      simp only [wfStopSign, List.all_eq_true, decide_eq_true_eq] at h
      simp [get_proto_stop_sign, get_stopsign_from_proto, map_mod256_eq_self l h]

/-- An optional stop sign field with well-formed content survives the
encode-decode cycle the Promise and AcceptSync paths perform. -/
theorem opt_stopsign_roundtrip (o : Option StopSign) (h : wfOptStopSign o = true) :
    (match (match o with
            | some stopsign => some (get_proto_stop_sign stopsign)
            | none => none : Option ProtoStopSign) with
      | some stopsign => some (get_stopsign_from_proto stopsign)
      | none => none) = o := by
  cases o with
  | none => rfl
  | some ss => simp [stopsign_roundtrip ss h]

/-- A sync item whose snapshot (if any) is Complete survives an
encode-decode cycle. -/
theorem syncitem_roundtrip (si : SyncItem) (h : wfSyncItem si = true) :
    get_syncitem_from_proto (get_proto_sync_item si) = some si := by
  cases si with
  | entries l =>
      simp only [get_proto_sync_item, get_syncitem_from_proto, entries_roundtrip]
  | snapshot s =>
      cases s with
      | complete => rfl
      | delta => simp [wfSyncItem] at h
  | noneItem => rfl

/-- An optional sync item field with well-formed content survives the
encode-decode cycle the Promise path performs. -/
theorem opt_syncitem_roundtrip (o : Option SyncItem) (h : wfOptSyncItem o = true) :
    decodeOptSyncItem
      (match o with
        | some sync_item => some (get_proto_sync_item sync_item)
        | none => none) = some o := by
  cases o with
  | none => rfl
  | some si => simp [decodeOptSyncItem, syncitem_roundtrip si h]

/-- Compactions survive an encode-decode cycle. -/
theorem compaction_roundtrip (c : Compaction) :
    get_compaction_from_proto (get_proto_compaction c) = c := by
  cases c <;> rfl

/-- Forwarded compactions survive an encode-decode cycle. -/
theorem forward_compaction_roundtrip (c : Compaction) :
    get_forward_compaction_from_proto (get_proto_forward_compaction c) = c := by
  cases c <;> rfl

/-- Claim C1 (the code contradicts it): the spawned outbound task calls
`unwrap` on the connect result and on the RPC call result, so a connect or
call failure panics the task instead of being silently dropped — for every
Paxos message kind and both BLE message kinds. -/
theorem outbound_rpc_failure_panics (m : Message) (b : BLEMessage) (r : RpcResult)
    (h : r ≠ RpcResult.ok) :
    send_paxos_message_task m r = TaskOutcome.panicked ∧
    send_ble_message_task b r = TaskOutcome.panicked := by
  obtain ⟨f, t, pm⟩ := m
  obtain ⟨bf, bt, bm⟩ := b
  cases r with
  | ok => exact absurd rfl h
  | connectError => exact ⟨by cases pm <;> rfl, by cases bm <;> rfl⟩
  | callError => exact ⟨by cases pm <;> rfl, by cases bm <;> rfl⟩

/-- Witness for `outbound_rpc_failure_panics` at a concrete message and a
concrete failed call. -/
theorem outbound_rpc_failure_panics_witness :
    send_paxos_message_task { from_ := 1, to_ := 2, msg := PaxosMsg.prepareReq }
      RpcResult.callError = TaskOutcome.panicked ∧
    send_ble_message_task
      { from_ := 1, to_ := 2, msg := HeartbeatMsg.request { round := 3 } }
      RpcResult.callError = TaskOutcome.panicked :=
  outbound_rpc_failure_panics _ _ _ (by decide)

/-- Claim C2 (the code contradicts it): a protocol request with a missing
required field makes the handler panic on `unwrap` instead of returning an
internal-status RPC error, shown here for Prepare, Promise, Accepted, Decide
and HeartbeatReply requests with an absent ballot. -/
theorem inbound_missing_field_panics :
    prepare_message
      { from_ := 1, to_ := 2, n := none, ld := 0, n_accepted := none, la := 0 } =
      HandlerOutcome.panic ∧
    promise_message
      { from_ := 1, to_ := 2, n := none, n_accepted := none, sync_item := none,
        ld := 0, la := 0, stopsign := none } =
      HandlerOutcome.panic ∧
    accepted_message { from_ := 1, to_ := 2, n := none, la := 0 } =
      HandlerOutcome.panic ∧
    decide_message { from_ := 1, to_ := 2, n := none, ld := 0 } =
      HandlerOutcome.panic ∧
    heartbeat_reply_message
      { from_ := 1, to_ := 2, round := 0, ballot := none, majority_connected := true } =
      HandlerOutcome.panic :=
  ⟨rfl, rfl, rfl, rfl, rfl⟩

/-- Claim C4: decoding a stop sign narrows every wire metadata element to its
low 8 bits, and the decode is total (values at or above 256 are truncated to
the element mod 256, never rejected). -/
theorem stopsign_metadata_truncated_mod256 (p : ProtoStopSign) :
    (get_stopsign_from_proto p).metadata = some (p.metadata.map (fun m => m % 256)) := rfl

/-- Claim C5: the `execute` handler maps consistency discriminant 1 to
RelaxedReads and every other value — including 0 and every unknown value —
to Strong, the consistency then used to run the query. -/
theorem execute_consistency_mapping (i : Int) :
    executeConsistency i =
      if i = 1 then Consistency.relaxedReads else Consistency.strong := by
  unfold executeConsistency protoConsistencyFromI32
  by_cases h0 : i = 0
  · simp [h0]
  · by_cases h1 : i = 1 <;> simp [h0, h1]

/-- Claim C9: a proto sync item whose oneof is absent makes
`get_syncitem_from_proto` panic on `unwrap` (modelled as `none`), and both
the AcceptSync and the Promise handler crash on a request carrying such a
sync item instead of producing a value or an error status. -/
theorem absent_syncitem_oneof_panics (p : ProtoSyncItem) (h : p.syncitem = none) :
    get_syncitem_from_proto p = none ∧
    accept_sync_message
      { from_ := 1, to_ := 2, n := some { n := 1, priority := 0, pid := 1 },
        sync_item := some p, sync_idx := 0, decided_idx := 0, stopsign := none } =
      HandlerOutcome.panic ∧
    promise_message
      { from_ := 1, to_ := 2, n := some { n := 1, priority := 0, pid := 1 },
        n_accepted := some { n := 0, priority := 0, pid := 0 },
        sync_item := some p, ld := 0, la := 0, stopsign := none } =
      HandlerOutcome.panic := by
  obtain ⟨si⟩ := p
  cases h
  exact ⟨rfl, rfl, rfl⟩

/-- Witness for `absent_syncitem_oneof_panics` at the concrete sync item with
no variant set. -/
theorem absent_syncitem_oneof_panics_witness :
    get_syncitem_from_proto { syncitem := none } = none ∧
    accept_sync_message
      { from_ := 1, to_ := 2, n := some { n := 1, priority := 0, pid := 1 },
        sync_item := some { syncitem := none }, sync_idx := 0, decided_idx := 0,
        stopsign := none } =
      HandlerOutcome.panic ∧
    promise_message
      { from_ := 1, to_ := 2, n := some { n := 1, priority := 0, pid := 1 },
        n_accepted := some { n := 0, priority := 0, pid := 0 },
        sync_item := some { syncitem := none }, ld := 0, la := 0, stopsign := none } =
      HandlerOutcome.panic :=
  absent_syncitem_oneof_panics { syncitem := none } rfl

/-- Claim C3 (counterexample): the round-trip law fails as stated. A
StopSign with absent metadata, carried here in an AcceptStopSign message,
does not come back equal to the original: the handler feeds the server a
message whose stop sign has metadata Some of the empty list. -/
theorem roundtrip_fails_on_absent_metadata :
    handle_proto_request (send_paxos_message
      { from_ := 1, to_ := 2
        msg := PaxosMsg.acceptStopSign
          { n := { n := 1, priority := 0, pid := 1 }
            ss := { config_id := 0, nodes := [1, 2], metadata := none } } }) ≠
    HandlerOutcome.ok
      [ServerEffect.recvMsg
        { from_ := 1, to_ := 2
          msg := PaxosMsg.acceptStopSign
            { n := { n := 1, priority := 0, pid := 1 }
              ss := { config_id := 0, nodes := [1, 2], metadata := none } } }]
      {} := by
  decide

/-- Claim C3 (amended): every Paxos message in which each embedded stop sign
carries Some byte metadata and each snapshot payload is Complete — and every
BLE message unconditionally — is reproduced exactly by an encode-decode
cycle: the receiving handler feeds the server precisely the original message
and returns the empty body. -/
theorem protocol_roundtrip_wf (m : Message) (b : BLEMessage)
    (h : wfMessage m = true) :
    handle_proto_request (send_paxos_message m) =
      HandlerOutcome.ok [ServerEffect.recvMsg m] {} ∧
    handle_proto_request (send_ble_message b) =
      HandlerOutcome.ok [ServerEffect.recvBleMsg b] {} := by
  constructor
  · obtain ⟨f, t, pm⟩ := m
    cases pm with
    | prepareReq => rfl
    | prepare p => rfl
    | promise p =>
        obtain ⟨n, na, si?, ld, la, ss?⟩ := p
        simp only [wfMessage, wfPaxosMsg, Bool.and_eq_true] at h
        obtain ⟨h1, h2⟩ := h
        cases si? with
        | none =>
            cases ss? with
            | none => rfl
            | some ss =>
                have e2 := stopsign_roundtrip ss h2
                simp only [send_paxos_message, handle_proto_request, promise_message,
                  decodeOptSyncItem, get_ballot_roundtrip, e2]
        | some si =>
            have e1 := syncitem_roundtrip si h1
            cases ss? with
            | none =>
                simp only [send_paxos_message, handle_proto_request, promise_message,
                  decodeOptSyncItem, get_ballot_roundtrip, e1]
            | some ss =>
                have e2 := stopsign_roundtrip ss h2
                simp only [send_paxos_message, handle_proto_request, promise_message,
                  decodeOptSyncItem, get_ballot_roundtrip, e1, e2]
    | acceptSync a =>
        obtain ⟨n, si, sidx, didx, ss?⟩ := a
        simp only [wfMessage, wfPaxosMsg, Bool.and_eq_true] at h
        obtain ⟨h1, h2⟩ := h
        have e1 := syncitem_roundtrip si h1
        cases ss? with
        | none =>
            simp only [send_paxos_message, handle_proto_request, accept_sync_message,
              get_ballot_roundtrip, e1]
        | some ss =>
            have e2 := stopsign_roundtrip ss h2
            simp only [send_paxos_message, handle_proto_request, accept_sync_message,
              get_ballot_roundtrip, e1, e2]
    | firstAccept fa =>
        obtain ⟨n, entries⟩ := fa
        simp only [send_paxos_message, handle_proto_request, first_accept_message,
          get_ballot_roundtrip, entries_roundtrip]
    | acceptDecide a =>
        obtain ⟨n, ld, entries⟩ := a
        simp only [send_paxos_message, handle_proto_request, accept_decide_message,
          get_ballot_roundtrip, entries_roundtrip]
    | accepted a => rfl
    | decide d => rfl
    | proposalForward props =>
        simp only [send_paxos_message, handle_proto_request, proposal_forward_message,
          entries_roundtrip]
    | compaction c =>
        simp only [send_paxos_message, handle_proto_request, compaction_message,
          compaction_roundtrip]
    | forwardCompaction c =>
        simp only [send_paxos_message, handle_proto_request, forward_compaction_message,
          forward_compaction_roundtrip]
    | acceptStopSign a =>
        obtain ⟨n, ss⟩ := a
        simp only [wfMessage, wfPaxosMsg] at h
        have e := stopsign_roundtrip ss h
        simp only [send_paxos_message, handle_proto_request, accept_stop_sign_message,
          get_ballot_roundtrip, e]
    | acceptedStopSign a => rfl
    | decideStopSign d => rfl
  · obtain ⟨bf, bt, bm⟩ := b
    cases bm with
    | request req => rfl
    | reply rep => rfl

/-- Witness for `protocol_roundtrip_wf` at a fully populated Promise message
and a heartbeat reply. -/
theorem protocol_roundtrip_wf_witness :
    wfMessage
      { from_ := 1, to_ := 2
        msg := PaxosMsg.promise
          { n := { n := 1, priority := 2, pid := 3 }
            n_accepted := { n := 0, priority := 1, pid := 1 }
            sync_item := some (SyncItem.entries [{ id := 5, sql := "INSERT" }])
            ld := 4
            la := 6
            stopsign := some { config_id := 7, nodes := [1, 2, 3], metadata := some [9, 255] } } } = true ∧
    (handle_proto_request (send_paxos_message
      { from_ := 1, to_ := 2
        msg := PaxosMsg.promise
          { n := { n := 1, priority := 2, pid := 3 }
            n_accepted := { n := 0, priority := 1, pid := 1 }
            sync_item := some (SyncItem.entries [{ id := 5, sql := "INSERT" }])
            ld := 4
            la := 6
            stopsign := some { config_id := 7, nodes := [1, 2, 3], metadata := some [9, 255] } } }) =
      HandlerOutcome.ok
        [ServerEffect.recvMsg
          { from_ := 1, to_ := 2
            msg := PaxosMsg.promise
              { n := { n := 1, priority := 2, pid := 3 }
                n_accepted := { n := 0, priority := 1, pid := 1 }
                sync_item := some (SyncItem.entries [{ id := 5, sql := "INSERT" }])
                ld := 4
                la := 6
                stopsign := some { config_id := 7, nodes := [1, 2, 3], metadata := some [9, 255] } } }]
        {} ∧
    handle_proto_request (send_ble_message
      { from_ := 2, to_ := 1
        msg := HeartbeatMsg.reply
          { round := 3, ballot := { n := 1, priority := 0, pid := 2 }, majority_connected := true } }) =
      HandlerOutcome.ok
        [ServerEffect.recvBleMsg
          { from_ := 2, to_ := 1
            msg := HeartbeatMsg.reply
              { round := 3, ballot := { n := 1, priority := 0, pid := 2 }, majority_connected := true } }]
        {}) :=
  ⟨by decide, protocol_roundtrip_wf _ _ (by decide)⟩

/-- Capacity is untouched by every pool operation. -/
theorem applyPoolOp_cap (q : ArrayQueue Conn) (op : PoolOp) :
    (applyPoolOp q op).cap = q.cap := by
  obtain ⟨cap, items⟩ := q
  cases op with
  | returnConn c =>
      simp only [applyPoolOp, ConnectionPool.replenish, ArrayQueue.push]
      by_cases hlt : items.length < cap <;> simp [hlt]
  | borrow nc =>
      cases items with
      | nil => rfl
      | cons x xs => rfl

/-- The number of pooled connections never grows past the capacity. -/
theorem applyPoolOp_len (q : ArrayQueue Conn) (op : PoolOp)
    (h : q.items.length ≤ q.cap) :
    (applyPoolOp q op).items.length ≤ q.cap := by
  obtain ⟨cap, items⟩ := q
  cases op with
  | returnConn c =>
      simp only [applyPoolOp, ConnectionPool.replenish, ArrayQueue.push]
      by_cases hlt : items.length < cap
      · simp only [hlt, if_true]
        simpa using hlt
      · simpa [hlt] using h
  | borrow nc =>
      cases items with
      | nil => exact h
      | cons x xs =>
          simp only [applyPoolOp, ConnectionPool.connection, ArrayQueue.pop]
          simp only [List.length_cons] at h
          exact le_trans (Nat.le_succ _) h

/-- Invariant carried along any operation sequence: the item count stays at
or below the (preserved) capacity. -/
theorem foldl_pool_invariant (ops : List PoolOp) (q : ArrayQueue Conn)
    (h : q.items.length ≤ q.cap) :
    (ops.foldl applyPoolOp q).cap = q.cap ∧
    (ops.foldl applyPoolOp q).items.length ≤ q.cap := by
  induction ops generalizing q with
  | nil => exact ⟨rfl, h⟩
  | cons op ops ih =>
      simp only [List.foldl_cons]
      have hc := applyPoolOp_cap q op
      have hl := applyPoolOp_len q op h
      obtain ⟨ih1, ih2⟩ := ih (applyPoolOp q op) (by rw [hc]; exact hl)
      exact ⟨ih1.trans hc, by rw [hc] at ih2; exact ih2⟩

/-- Claim C6: every pool state reachable from `ConnectionPool::new` by
returns and borrows holds at most 16 connections; returning a connection to
a full pool leaves the pool unchanged (the connection is discarded without
error); and borrowing from the empty pool hands out the freshly opened
connection instead of blocking or failing. -/
theorem connection_pool_bounded (ops : List PoolOp) (q : ArrayQueue Conn)
    (c newConn : Conn) (hfull : q.items.length = q.cap) :
    (runPoolOps ops).cap = 16 ∧
    (runPoolOps ops).items.length ≤ 16 ∧
    ConnectionPool.replenish q c = q ∧
    ConnectionPool.connection ConnectionPool.new newConn =
      (newConn, ConnectionPool.new) := by
  obtain ⟨h1, h2⟩ := foldl_pool_invariant ops ConnectionPool.new (by simp [ConnectionPool.new])
  refine ⟨h1, h2, ?_, rfl⟩
  obtain ⟨cap, items⟩ := q
  simp only at hfull
  simp [ConnectionPool.replenish, ArrayQueue.push, hfull]

/-- Witness for `connection_pool_bounded` at a concrete full pool and a
concrete operation sequence. -/
theorem connection_pool_bounded_witness :
    (runPoolOps [PoolOp.returnConn 5, PoolOp.borrow 7]).cap = 16 ∧
    (runPoolOps [PoolOp.returnConn 5, PoolOp.borrow 7]).items.length ≤ 16 ∧
    ConnectionPool.replenish
      { cap := 16, items := [0, 1, 2, 3, 4, 5, 6, 7, 8, 9, 10, 11, 12, 13, 14, 15] } 3 =
      { cap := 16, items := [0, 1, 2, 3, 4, 5, 6, 7, 8, 9, 10, 11, 12, 13, 14, 15] } ∧
    ConnectionPool.connection ConnectionPool.new 4 = (4, ConnectionPool.new) :=
  connection_pool_bounded _ _ _ _ (by decide)

/-- Claim C7: `execute` runs the server's query on the request's SQL at the
decoded consistency; an engine error comes back as an internal status whose
message is the stringified error, and a success comes back as exactly the
result rows with each row's string values in order. -/
theorem execute_query_result_mapping (q : ProtoQuery)
    (sq : String → Consistency → Except String QueryResults) :
    (∀ e, sq q.sql (executeConsistency q.consistency) = Except.error e →
      execute sq q =
        HandlerOutcome.err [ServerEffect.query q.sql (executeConsistency q.consistency)]
          (Status.internal e)) ∧
    (∀ res, sq q.sql (executeConsistency q.consistency) = Except.ok res →
      execute sq q =
        HandlerOutcome.ok [ServerEffect.query q.sql (executeConsistency q.consistency)]
          { rows := res.rows.map (fun row => { values := row.values }) }) := by
  constructor
  · intro e he
    simp [execute, he]
  · intro res hres
    simp [execute, hres]

/-- Witness for `execute_query_result_mapping` on a failing and a succeeding
server query. -/
theorem execute_query_result_mapping_witness :
    execute (fun _ _ => Except.error "table t does not exist")
        { sql := "SELECT k FROM t", consistency := 0 } =
      HandlerOutcome.err
        [ServerEffect.query "SELECT k FROM t" (executeConsistency 0)]
        (Status.internal "table t does not exist") ∧
    execute (fun _ _ => Except.ok { rows := [{ values := ["42", "a"] }] })
        { sql := "SELECT k FROM t", consistency := 0 } =
      HandlerOutcome.ok
        [ServerEffect.query "SELECT k FROM t" (executeConsistency 0)]
        { rows := [{ values := ["42", "a"] }] } :=
  ⟨(execute_query_result_mapping { sql := "SELECT k FROM t", consistency := 0 }
      (fun _ _ => Except.error "table t does not exist")).1 _ rfl,
   (execute_query_result_mapping { sql := "SELECT k FROM t", consistency := 0 }
      (fun _ _ => Except.ok { rows := [{ values := ["42", "a"] }] })).2 _ rfl⟩

/-- Claim C8: every protocol handler, on a request with all required fields
present, makes exactly one server call — `recv_msg` with the decoded Paxos
message or `recv_ble_msg` with the decoded BLE message — and returns the
empty body; no handler returns protocol outcomes or drains outbound
messages. -/
theorem handlers_recv_and_empty_response (r : ProtoRequest)
    (h : wfProtoRequest r = true) :
    (∃ m, handle_proto_request r = HandlerOutcome.ok [ServerEffect.recvMsg m] {}) ∨
    (∃ b, handle_proto_request r = HandlerOutcome.ok [ServerEffect.recvBleMsg b] {}) := by
  cases r with
  | prepareReq q => exact Or.inl ⟨_, rfl⟩
  | prepare q =>
      obtain ⟨f, t, n?, ld, na?, la⟩ := q
      cases n? with
      | none => simp [wfProtoRequest] at h
      | some n =>
          cases na? with
          | none => simp [wfProtoRequest] at h
          | some na => exact Or.inl ⟨_, rfl⟩
  | promise q =>
      obtain ⟨f, t, n?, na?, si?, ld, la, ss?⟩ := q
      cases n? with
      | none => simp [wfProtoRequest] at h
      | some n =>
        cases na? with
        | none => simp [wfProtoRequest] at h
        | some na =>
          cases hsi : decodeOptSyncItem si? with
          | none => simp [wfProtoRequest, hsi] at h
          | some si =>
              cases ss? with
              | none =>
                  refine Or.inl
                    ⟨{ from_ := f, to_ := t
                       msg := PaxosMsg.promise
                         { n := get_ballot_from_proto n
                           n_accepted := get_ballot_from_proto na
                           sync_item := si
                           ld := ld
                           la := la
                           stopsign := none } }, ?_⟩
                  simp only [handle_proto_request, promise_message, hsi]
              | some ss =>
                  refine Or.inl
                    ⟨{ from_ := f, to_ := t
                       msg := PaxosMsg.promise
                         { n := get_ballot_from_proto n
                           n_accepted := get_ballot_from_proto na
                           sync_item := si
                           ld := ld
                           la := la
                           stopsign := some (get_stopsign_from_proto ss) } }, ?_⟩
                  simp only [handle_proto_request, promise_message, hsi]
  | acceptSync q =>
      obtain ⟨f, t, n?, si?, sidx, didx, ss?⟩ := q
      cases n? with
      | none => simp [wfProtoRequest] at h
      | some n =>
        cases si? with
        | none => simp [wfProtoRequest] at h
        | some psi =>
          cases hg : get_syncitem_from_proto psi with
          | none => simp [wfProtoRequest, hg] at h
          | some si =>
              cases ss? with
              | none =>
                  refine Or.inl
                    ⟨{ from_ := f, to_ := t
                       msg := PaxosMsg.acceptSync
                         { n := get_ballot_from_proto n
                           sync_item := si
                           sync_idx := sidx
                           decide_idx := didx
                           stopsign := none } }, ?_⟩
                  simp only [handle_proto_request, accept_sync_message, hg]
              | some ss =>
                  refine Or.inl
                    ⟨{ from_ := f, to_ := t
                       msg := PaxosMsg.acceptSync
                         { n := get_ballot_from_proto n
                           sync_item := si
                           sync_idx := sidx
                           decide_idx := didx
                           stopsign := some (get_stopsign_from_proto ss) } }, ?_⟩
                  simp only [handle_proto_request, accept_sync_message, hg]
  | firstAccept q =>
      obtain ⟨f, t, n?, entries⟩ := q
      cases n? with
      | none => simp [wfProtoRequest] at h
      | some n => exact Or.inl ⟨_, rfl⟩
  | acceptDecide q =>
      obtain ⟨f, t, n?, ld, entries⟩ := q
      cases n? with
      | none => simp [wfProtoRequest] at h
      | some n => exact Or.inl ⟨_, rfl⟩
  | accepted q =>
      obtain ⟨f, t, n?, la⟩ := q
      cases n? with
      | none => simp [wfProtoRequest] at h
      | some n => exact Or.inl ⟨_, rfl⟩
  | decide q =>
      obtain ⟨f, t, n?, ld⟩ := q
      cases n? with
      | none => simp [wfProtoRequest] at h
      | some n => exact Or.inl ⟨_, rfl⟩
  | proposalForward q => exact Or.inl ⟨_, rfl⟩
  | compaction q =>
      obtain ⟨f, t, c?⟩ := q
      cases c? with
      | none => simp [wfProtoRequest] at h
      | some c => exact Or.inl ⟨_, rfl⟩
  | forwardCompaction q =>
      obtain ⟨f, t, c?⟩ := q
      cases c? with
      | none => simp [wfProtoRequest] at h
      | some c => exact Or.inl ⟨_, rfl⟩
  | acceptStopSign q =>
      obtain ⟨f, t, n?, ss?⟩ := q
      cases n? with
      | none => simp [wfProtoRequest] at h
      | some n =>
          cases ss? with
          | none => simp [wfProtoRequest] at h
          | some ss => exact Or.inl ⟨_, rfl⟩
  | acceptedStopSign q =>
      obtain ⟨f, t, n?⟩ := q
      cases n? with
      | none => simp [wfProtoRequest] at h
      | some n => exact Or.inl ⟨_, rfl⟩
  | decideStopSign q =>
      obtain ⟨f, t, n?⟩ := q
      cases n? with
      | none => simp [wfProtoRequest] at h
      | some n => exact Or.inl ⟨_, rfl⟩
  | heartbeatRequest q => exact Or.inr ⟨_, rfl⟩
  | heartbeatReply q =>
      obtain ⟨f, t, round, b?, mc⟩ := q
      cases b? with
      | none => simp [wfProtoRequest] at h
      | some ballot => exact Or.inr ⟨_, rfl⟩

/-- Witness for `handlers_recv_and_empty_response` at a concrete well-formed
Accepted request. -/
theorem handlers_recv_and_empty_response_witness :
    wfProtoRequest (ProtoRequest.accepted
      { from_ := 1, to_ := 2, n := some { n := 3, priority := 0, pid := 1 }, la := 7 }) =
      true ∧
    ((∃ m, handle_proto_request (ProtoRequest.accepted
        { from_ := 1, to_ := 2, n := some { n := 3, priority := 0, pid := 1 }, la := 7 }) =
        HandlerOutcome.ok [ServerEffect.recvMsg m] {}) ∨
     (∃ b, handle_proto_request (ProtoRequest.accepted
        { from_ := 1, to_ := 2, n := some { n := 3, priority := 0, pid := 1 }, la := 7 }) =
        HandlerOutcome.ok [ServerEffect.recvBleMsg b] {})) :=
  ⟨by decide, handlers_recv_and_empty_response _ (by decide)⟩

/-- Claim C10: a decoded stop sign always carries present metadata, and a
stop sign whose metadata is absent comes back from one encode-decode cycle
with metadata equal to Some of the empty list. -/
theorem decoded_stopsign_metadata_always_some (p : ProtoStopSign) (cid : Nat)
    (ns : List Nat) :
    (∃ l, (get_stopsign_from_proto p).metadata = some l) ∧
    get_stopsign_from_proto
        (get_proto_stop_sign { config_id := cid, nodes := ns, metadata := none }) =
      { config_id := cid, nodes := ns, metadata := some [] } :=
  ⟨⟨p.metadata.map (fun m => m % 256), rfl⟩, rfl⟩

end ChiselStore
